import Mathlib

/-!
# hifi: GL texture backend

A shallow embedding of

* `libraries/gpu-gl/src/gpu/gl41/GL41BackendTexture.cpp` (the GL 4.1 texture object:
  allocation, mip storage, binding preservation, content and sampler sync),
* the `size()` members of the GL 4.5 texture classes in
  `libraries/gpu-gl/src/gpu/gl45/GL45Backend.h`.

`addSphereScene` of `libraries/voxels/src/SceneUtils.cpp` computes its voxel sizes and
corner coordinates in `float` and `double`; it is not embedded here.

GL is modelled by the part of its state the code reads back (the texture bound to
`GL_TEXTURE_2D` and to `GL_TEXTURE_CUBE_MAP`), a name counter for `glGenTextures`, and the
list of GL calls issued so far.  Declarations that live in headers outside these files
(integer type of `Stamp`, `Sampler::MAX_MIP_LEVEL`, the lookup tables, ...) are collected in
the structure `Headers` and every theorem holds for all of its values.
-/

namespace gpu

/-! ## Machine integers -/

/-- An integer type of the target: its width and signedness. -/
structure IntType where
  bits : Nat
  signed : Bool
  pos : 0 < bits

/-- Smallest value of the type. -/
def IntType.minVal (t : IntType) : Int :=
  if t.signed then -(2 ^ (t.bits - 1)) else 0

/-- Largest value of the type. -/
def IntType.maxVal (t : IntType) : Int :=
  if t.signed then 2 ^ (t.bits - 1) - 1 else 2 ^ t.bits - 1

/-- The value `x` is representable in the type. -/
def IntType.Holds (t : IntType) (x : Int) : Prop :=
  t.minVal ≤ x ∧ x ≤ t.maxVal

instance (t : IntType) (x : Int) : Decidable (t.Holds x) := by
  unfold IntType.Holds; exact inferInstance

/-- Reduction of a mathematical result into the type (two's complement for signed types). -/
def IntType.wrap (t : IntType) (x : Int) : Int :=
  if t.signed then (x + 2 ^ (t.bits - 1)) % 2 ^ t.bits - 2 ^ (t.bits - 1)
  else x % 2 ^ t.bits

/-- The C type `int`. -/
def int32 : IntType := ⟨32, true, by decide⟩

abbrev GLenum := Nat
abbrev GLuint := Nat
abbrev GLint := Int

/-- Conversion `GLuint -> GLint` (same 32 bits). -/
def toGLint (n : GLuint) : GLint :=
  if n % 2 ^ 32 < 2 ^ 31 then ((n % 2 ^ 32 : Nat) : Int) else ((n % 2 ^ 32 : Nat) : Int) - 2 ^ 32

/-- Conversion `GLint -> GLuint` (same 32 bits). -/
def toGLuint (i : GLint) : GLuint :=
  (i % 2 ^ 32).toNat

/-- Conversion to `uint16`. -/
def toUint16 (n : Nat) : Nat := n % 2 ^ 16

/-- Conversion to `uint32`. -/
def toUint32 (n : Nat) : Nat := n % 2 ^ 32

/-! ## GL constants (values of the OpenGL headers) -/

def GL_NONE : GLenum := 0
def GL_TEXTURE_2D : GLenum := 0x0DE1
def GL_TEXTURE_CUBE_MAP : GLenum := 0x8513
def GL_TEXTURE_BINDING_2D : GLenum := 0x8069
def GL_TEXTURE_BINDING_CUBE_MAP : GLenum := 0x8514
def GL_TEXTURE_MAG_FILTER : GLenum := 0x2800
def GL_TEXTURE_MIN_FILTER : GLenum := 0x2801
def GL_TEXTURE_WRAP_S : GLenum := 0x2802
def GL_TEXTURE_WRAP_T : GLenum := 0x2803
def GL_TEXTURE_WRAP_R : GLenum := 0x8072
def GL_TEXTURE_BORDER_COLOR : GLenum := 0x1004
def GL_TEXTURE_MIN_LOD : GLenum := 0x813A
def GL_TEXTURE_MAX_LOD : GLenum := 0x813B
def GL_TEXTURE_BASE_LEVEL : GLenum := 0x813C
def GL_TEXTURE_MAX_ANISOTROPY_EXT : GLenum := 0x84FE
def GL_TEXTURE_COMPARE_MODE : GLenum := 0x884C
def GL_TEXTURE_COMPARE_FUNC : GLenum := 0x884D
def GL_COMPARE_R_TO_TEXTURE : GLenum := 0x884E

/-! ## GL calls and GL state -/

/-- A `float` argument of a GL call, kept symbolic: either the conversion of an integer
value to `float`, or a `float` stored elsewhere (by its bits). -/
inductive GLfloat where
  | ofInt (i : Int)
  | stored (bits : Nat)
deriving DecidableEq, Repr

/-- Four stored floats (`glm::vec4`). -/
structure Vec4 where
  x : GLfloat
  y : GLfloat
  z : GLfloat
  w : GLfloat
deriving DecidableEq, Repr

/-- Unsigned 3-vector (`Vec3u`). -/
structure Vec3u where
  x : Nat
  y : Nat
  z : Nat
deriving DecidableEq, Repr

/-- The GL entry points used by the texture object, with their arguments.  The data pointer
of `glTexImage2D` is `none` for `NULL`. -/
inductive GLCall where
  | genTextures (n : Nat) (result : GLuint)
  | getIntegerv (pname : GLenum)
  | bindTexture (target : GLenum) (texture : GLuint)
  | texImage2D (target : GLenum) (level : Int) (internalFormat : GLenum)
      (width height : Nat) (border : Int) (format type : GLenum) (data : Option Nat)
  | texParameteri (target pname : GLenum) (param : Int)
  | texParameterf (target pname : GLenum) (param : GLfloat)
  | texParameterfv (target pname : GLenum) (params : Vec4)
deriving DecidableEq, Repr

/-- The mutable state outside the texture objects. -/
structure State where
  /-- Texture bound to `GL_TEXTURE_2D`. -/
  binding2D : GLuint
  /-- Texture bound to `GL_TEXTURE_CUBE_MAP`. -/
  bindingCubeMap : GLuint
  /-- Next unused texture name. -/
  nextName : GLuint
  /-- GL calls issued so far, oldest first. -/
  calls : List GLCall
  /-- The counter behind `Backend::incrementTextureGPUCount`. -/
  textureGPUCount : Nat
deriving DecidableEq, Repr

/-- Texture names held by GL are `GLuint` values. -/
def State.WF (s : State) : Prop :=
  s.binding2D < 2 ^ 32 ∧ s.bindingCubeMap < 2 ^ 32

instance (s : State) : Decidable s.WF := by
  unfold State.WF; exact inferInstance

/-- The texture bound to `target`, for the two targets that are tracked. -/
def State.bound (s : State) (target : GLenum) : Option GLuint :=
  if target = GL_TEXTURE_2D then some s.binding2D
  else if target = GL_TEXTURE_CUBE_MAP then some s.bindingCubeMap
  else none

/-- The call `glGenTextures(1, &result)`: a fresh name. -/
def glGenTextures (s : State) : GLuint × State :=
  (s.nextName, { s with nextName := s.nextName + 1,
                        calls := s.calls ++ [GLCall.genTextures 1 s.nextName] })

/-- The call `glGetIntegerv(pname, &v)` for the binding queries: the bound name comes back
in a `GLint`; `v` keeps its previous value `old` for any other `pname`. -/
def glGetIntegerv (pname : GLenum) (old : GLint) (s : State) : GLint × State :=
  let s1 := { s with calls := s.calls ++ [GLCall.getIntegerv pname] }
  if pname = GL_TEXTURE_BINDING_2D then (toGLint s.binding2D, s1)
  else if pname = GL_TEXTURE_BINDING_CUBE_MAP then (toGLint s.bindingCubeMap, s1)
  else (old, s1)

/-- The call `glBindTexture(target, texture)`. -/
def glBindTexture (target : GLenum) (texture : GLuint) (s : State) : State :=
  let s1 := { s with calls := s.calls ++ [GLCall.bindTexture target texture] }
  if target = GL_TEXTURE_2D then { s1 with binding2D := texture }
  else if target = GL_TEXTURE_CUBE_MAP then { s1 with bindingCubeMap := texture }
  else s1

/-- A GL call without a modelled effect on the bindings: it is appended to the call list. -/
def glCall (c : GLCall) (s : State) : State :=
  { s with calls := s.calls ++ [c] }

/-! ## Outcomes -/

/-- How a run ends: it returns a value, it aborts in `qFatal`, or the step budget of the
model is used up before it returns. -/
inductive Outcome (α : Type) where
  | ok (a : α)
  | fatal
  | timeout

/-! ## gpu::Sampler and gpu::Texture as read by the backend -/

/-- The values a `Sampler` hands out through its getters. -/
structure Sampler where
  filter : Nat
  comparisonFunction : Nat
  wrapModeU : Nat
  wrapModeV : Nat
  wrapModeW : Nat
  borderColor : Vec4
  mipOffset : Nat
  minMip : Nat
  maxMip : Nat
  maxAnisotropy : Nat
deriving DecidableEq, Repr

/-- The enumeration `TextureUsageType`: the two enumerators the code names, and the rest. -/
inductive TextureUsageType where
  | RESOURCE
  | EXTERNAL
  | other (k : Nat)
deriving DecidableEq, Repr

/-- The fields of `GL41Texture` (with those inherited from `GLTexture`); the reference
`_gpuObject` to the texture is passed to the member functions instead. -/
structure GL41Texture where
  _target : GLenum
  _texture : GLuint
  _storageStamp : Int
  _contentStamp : Int
  _samplerStamp : Int
  _size : Nat
deriving DecidableEq, Repr

/-- The values a `Texture` hands out through its getters, and the backend object attached to
it (`Backend::getGPUObject<GL41Texture>(texture)`, `none` for a null pointer). -/
structure Texture where
  usageType : TextureUsageType
  isDefined : Bool
  stamp : Int
  dataStamp : Int
  samplerStamp : Int
  sampler : Sampler
  texelFormat : Nat
  evalTotalSize : Nat
  evalMipDimensions : Nat → Vec3u
  gpuObject : Option GL41Texture

/-- The struct `GLTexelFormat`. -/
structure GLTexelFormat where
  internalFormat : GLenum
  format : GLenum
  type : GLenum
deriving DecidableEq, Repr

/-- An entry of the table `FILTER_MODES`. -/
structure FilterMode where
  minFilter : GLenum
  magFilter : GLenum
deriving DecidableEq, Repr

/-- What `syncGPUObject` returns: a null pointer, a `GL41Texture`, or whatever object the
parent class returns for an external texture. -/
inductive GLTexturePtr where
  | null
  | gl41 (object : GL41Texture)
  | parent (id : Nat)
deriving DecidableEq, Repr

/-- Declarations the sources use but which are made in headers outside them. -/
structure Headers where
  /-- The integer type `Stamp`. -/
  stampType : IntType
  /-- The constant `Sampler::MAX_MIP_LEVEL`. -/
  MAX_MIP_LEVEL : Nat
  /-- The table `FILTER_MODES`. -/
  FILTER_MODES : Nat → FilterMode
  /-- The table `COMPARISON_TO_GL`. -/
  COMPARISON_TO_GL : Nat → GLenum
  /-- The table `WRAP_MODES`. -/
  WRAP_MODES : Nat → GLenum
  /-- The member `Sampler::doComparison`. -/
  doComparison : Sampler → Bool
  /-- The function `getFaceTargets`. -/
  getFaceTargets : GLenum → List GLenum
  /-- The function `GLTexelFormat::evalGLTexelFormat`. -/
  evalGLTexelFormat : Nat → GLTexelFormat
  /-- The target the `GLTexture` base constructor stores in `_target`. -/
  getGLTextureType : Texture → GLenum
  /-- Initial value of `_contentStamp`. -/
  initContentStamp : Int
  /-- Initial value of `_samplerStamp`. -/
  initSamplerStamp : Int
  /-- The member `GLBackend::syncGPUObject` of the parent class. -/
  parentSyncGPUObject : Texture → State → Outcome (GLTexturePtr × State)

/-- Sequencing of runs. -/
def Outcome.bind {α β : Type} (r : Outcome α) (k : α → Outcome β) : Outcome β :=
  match r with
  | Outcome.ok a => k a
  | Outcome.fatal => Outcome.fatal
  | Outcome.timeout => Outcome.timeout

/-! ## GL41BackendTexture.cpp -/

/-- The function `GL41Texture::allocate`. -/
def GL41Texture.allocate (s : State) : GLuint × State :=
  glGenTextures { s with textureGPUCount := s.textureGPUCount + 1 }

/-- The function `GL41Texture::withPreservedTexture`.  The callback works on the state and
may hand back a value (what it assigns to the variables it captures); it may itself not
return.  The error polls `CHECK_GL_ERROR()` read no state modelled here. -/
def GL41Texture.withPreservedTexture {α : Type} (this : GL41Texture)
    (f : State → Outcome (α × State)) (s : State) : Outcome (α × State) :=
  let boundTex : GLint := -1
  let queried : Outcome (GLint × State) :=
    if this._target = GL_TEXTURE_2D then
      Outcome.ok (glGetIntegerv GL_TEXTURE_BINDING_2D boundTex s)
    else if this._target = GL_TEXTURE_CUBE_MAP then
      Outcome.ok (glGetIntegerv GL_TEXTURE_BINDING_CUBE_MAP boundTex s)
    else Outcome.fatal
  queried.bind fun q =>
    (f (glBindTexture this._target this._texture q.2)).bind fun r =>
      Outcome.ok (r.1, glBindTexture this._target (toGLuint q.1) r.2)

/-- The inner loop `for (GLenum target : getFaceTargets(_target))` of the constructor: one
`glTexImage2D` per face target. -/
def allocateFaces (targets : List GLenum) (level : Int) (texelFormat : GLTexelFormat)
    (dimensions : Vec3u) (s : State) : State :=
  targets.foldl (fun st target =>
    glCall (GLCall.texImage2D target level texelFormat.internalFormat dimensions.x dimensions.y 0
      texelFormat.format texelFormat.type none) st) s

/-- The loop `for (uint16_t l = minMip; l <= maxMip; l++)` of the constructor, from the
current value of `l`; every iteration takes one unit of `fuel`, and `l++` wraps at 16 bits.
The level `l - minMip` is an `int` after promotion. -/
def storageLoop (targets : List GLenum) (texelFormat : GLTexelFormat)
    (evalMipDimensions : Nat → Vec3u) (minMip maxMip : Nat) :
    Nat → Nat → State → Outcome State
  | 0, _, _ => Outcome.timeout
  | fuel + 1, l, s =>
    if l ≤ maxMip then
      let dimensions := evalMipDimensions l
      let s1 := allocateFaces targets ((l : Int) - (minMip : Int)) texelFormat dimensions s
      storageLoop targets texelFormat evalMipDimensions minMip maxMip fuel (toUint16 (l + 1)) s1
    else Outcome.ok s

/-- The callback the constructor passes to `withPreservedTexture`. -/
def GL41Texture.allocateStorage (H : Headers) (this : GL41Texture) (fuel : Nat)
    (_gpuObject : Texture) (st : State) : Outcome (Unit × State) :=
  let texelFormat := H.evalGLTexelFormat _gpuObject.texelFormat
  let sampler := _gpuObject.sampler
  let minMip := sampler.minMip
  let maxMip := sampler.maxMip
  (storageLoop (H.getFaceTargets this._target) texelFormat _gpuObject.evalMipDimensions
    minMip maxMip fuel (toUint16 minMip) st).bind fun st1 => Outcome.ok ((), st1)

/-- The constructor `GL41Texture::GL41Texture`. -/
def GL41Texture.new (H : Headers) (fuel : Nat) (texture : Texture) (s : State) :
    Outcome (GL41Texture × State) :=
  let a := GL41Texture.allocate s
  let this : GL41Texture :=
    { _target := H.getGLTextureType texture
      _texture := a.1
      _storageStamp := texture.stamp
      _contentStamp := H.initContentStamp
      _samplerStamp := H.initSamplerStamp
      _size := texture.evalTotalSize }
  (this.withPreservedTexture (this.allocateStorage H fuel texture) a.2).bind
    fun r => Outcome.ok (this, r.2)

/-- The function `GL41Texture::isOutdated`. -/
def GL41Texture.isOutdated (this : GL41Texture) (_gpuObject : Texture) : Bool :=
  if this._samplerStamp ≤ _gpuObject.samplerStamp then true
  else if TextureUsageType.RESOURCE = _gpuObject.usageType ∧
      this._contentStamp ≤ _gpuObject.dataStamp then true
  else false

/-- The function `GL41Texture::syncContent`; the sum is formed in the type `Stamp`. -/
def GL41Texture.syncContent (H : Headers) (this : GL41Texture) (_gpuObject : Texture)
    (s : State) : GL41Texture × State :=
  ({ this with _contentStamp := H.stampType.wrap (_gpuObject.dataStamp + 1) }, s)

/-- The function `GL41Texture::syncSampler`; the stamp sum is formed in the type `Stamp`,
and the `float` arguments are the conversions of the integer values named. -/
def GL41Texture.syncSampler (H : Headers) (this : GL41Texture) (_gpuObject : Texture)
    (s : State) : GL41Texture × State :=
  let sampler := _gpuObject.sampler
  let fm := H.FILTER_MODES sampler.filter
  let s := glCall (GLCall.texParameteri this._target GL_TEXTURE_MIN_FILTER fm.minFilter) s
  let s := glCall (GLCall.texParameteri this._target GL_TEXTURE_MAG_FILTER fm.magFilter) s
  let s :=
    if H.doComparison sampler then
      let s := glCall (GLCall.texParameteri this._target GL_TEXTURE_COMPARE_MODE
        GL_COMPARE_R_TO_TEXTURE) s
      glCall (GLCall.texParameteri this._target GL_TEXTURE_COMPARE_FUNC
        (H.COMPARISON_TO_GL sampler.comparisonFunction)) s
    else
      glCall (GLCall.texParameteri this._target GL_TEXTURE_COMPARE_MODE GL_NONE) s
  let s := glCall (GLCall.texParameteri this._target GL_TEXTURE_WRAP_S
    (H.WRAP_MODES sampler.wrapModeU)) s
  let s := glCall (GLCall.texParameteri this._target GL_TEXTURE_WRAP_T
    (H.WRAP_MODES sampler.wrapModeV)) s
  let s := glCall (GLCall.texParameteri this._target GL_TEXTURE_WRAP_R
    (H.WRAP_MODES sampler.wrapModeW)) s
  let s := glCall (GLCall.texParameterfv this._target GL_TEXTURE_BORDER_COLOR
    sampler.borderColor) s
  let s := glCall (GLCall.texParameteri this._target GL_TEXTURE_BASE_LEVEL
    (toUint16 sampler.mipOffset)) s
  let s := glCall (GLCall.texParameterf this._target GL_TEXTURE_MIN_LOD
    (GLfloat.ofInt sampler.minMip)) s
  let s := glCall (GLCall.texParameterf this._target GL_TEXTURE_MAX_LOD
    (if sampler.maxMip = H.MAX_MIP_LEVEL then GLfloat.ofInt 1000
     else GLfloat.ofInt sampler.maxMip)) s
  let s := glCall (GLCall.texParameterf this._target GL_TEXTURE_MAX_ANISOTROPY_EXT
    (GLfloat.ofInt sampler.maxAnisotropy)) s
  ({ this with _samplerStamp := H.stampType.wrap (_gpuObject.samplerStamp + 1) }, s)

/-- The function `GL41Texture::size`, returning `uint32`. -/
def GL41Texture.size (this : GL41Texture) : Nat :=
  toUint32 this._size

/-- The callback `syncGPUObject` passes to `withPreservedTexture`. -/
def syncStale (H : Headers) (object : GL41Texture) (texture : Texture) (s : State) :
    GL41Texture × State :=
  let r1 :=
    if object._contentStamp < texture.dataStamp then object.syncContent H texture s
    else (object, s)
  if r1.1._samplerStamp < texture.samplerStamp then r1.1.syncSampler H texture r1.2
  else r1

/-- The first half of `GL41Backend::syncGPUObject` for a defined texture: fetch the attached
object, or construct one when there is none or its storage is out of date. -/
def fetchOrCreate (H : Headers) (fuel : Nat) (texture : Texture) (s : State) :
    Outcome (GL41Texture × State) :=
  match texture.gpuObject with
  | none => GL41Texture.new H fuel texture s
  | some object =>
    if object._storageStamp < texture.stamp then GL41Texture.new H fuel texture s
    else Outcome.ok (object, s)

/-- The second half of `GL41Backend::syncGPUObject`: bring an outdated object up to date
and return it. -/
def syncIfOutdated (H : Headers) (object : GL41Texture) (texture : Texture) (s : State) :
    Outcome (GLTexturePtr × State) :=
  if object.isOutdated texture then
    (object.withPreservedTexture
      (fun st => Outcome.ok (syncStale H object texture st)) s).bind fun r =>
        Outcome.ok (GLTexturePtr.gl41 r.1, r.2)
  else Outcome.ok (GLTexturePtr.gl41 object, s)

/-- The function `GL41Backend::syncGPUObject`; a null `texturePointer` is `none`. -/
def GL41Backend.syncGPUObject (H : Headers) (fuel : Nat) (texturePointer : Option Texture)
    (s : State) : Outcome (GLTexturePtr × State) :=
  match texturePointer with
  | none => Outcome.ok (GLTexturePtr.null, s)
  | some texture =>
    if TextureUsageType.EXTERNAL = texture.usageType then H.parentSyncGPUObject texture s
    else if !texture.isDefined then Outcome.ok (GLTexturePtr.null, s)
    else
      (fetchOrCreate H fuel texture s).bind fun c => syncIfOutdated H c.1 texture c.2

/-! ## Reading the call list -/

/-- The GL calls issued on the way from state `s` to state `s1`. -/
def issuedBetween (s s1 : State) : List GLCall :=
  s1.calls.drop s.calls.length

/-- The call sets the texture parameter `pname`. -/
def GLCall.sets (pname : GLenum) : GLCall → Bool
  | GLCall.texParameteri _ p _ => p == pname
  | GLCall.texParameterf _ p _ => p == pname
  | GLCall.texParameterfv _ p _ => p == pname
  | _ => false

/-- The calls of a list that set the texture parameter `pname`, in order. -/
def settingsOf (pname : GLenum) (cs : List GLCall) : List GLCall :=
  cs.filter (GLCall.sets pname)

/-- The `glTexImage2D` calls expected for mip `l`: one per face target, at GL level
`l - minMip`, with the width and height of `evalMipDimensions(l)` and no data. -/
def mipCalls (targets : List GLenum) (texelFormat : GLTexelFormat)
    (evalMipDimensions : Nat → Vec3u) (minMip : Nat) (l : Nat) : List GLCall :=
  targets.map fun target =>
    GLCall.texImage2D target ((l : Int) - (minMip : Int)) texelFormat.internalFormat
      (evalMipDimensions l).x (evalMipDimensions l).y 0 texelFormat.format texelFormat.type none

/-- The sampler hands out its mip levels as `uint8` values: the fields `_mipOffset`,
`_minMip` and `_maxMip` of `Sampler::Desc` (gpu/Texture.h, outside these sources).  The
backend widens them where it counts with them, as in `uint16_t l = minMip` and
`(uint16)sampler.getMipOffset()`. -/
def Sampler.WF (sampler : Sampler) : Prop :=
  sampler.mipOffset < 2 ^ 8 ∧ sampler.minMip < 2 ^ 8 ∧ sampler.maxMip < 2 ^ 8

instance (sampler : Sampler) : Decidable sampler.WF := by
  unfold Sampler.WF; exact inferInstance

/-- Two states agree on the texture count and on the next free texture name. -/
def SameCounters (s s1 : State) : Prop :=
  s1.textureGPUCount = s.textureGPUCount ∧ s1.nextName = s.nextName

/-! ## Sample values -/

/-- A set of header declarations: 32-bit signed stamps, mip levels up to 255. -/
def exampleHeaders : Headers :=
  { stampType := int32
    MAX_MIP_LEVEL := 0xFF
    FILTER_MODES := fun _ => ⟨0x2600, 0x2601⟩
    COMPARISON_TO_GL := fun k => 0x0200 + k
    WRAP_MODES := fun _ => 0x2901
    doComparison := fun sampler => sampler.comparisonFunction != 7
    getFaceTargets := fun target =>
      if target = GL_TEXTURE_2D then [GL_TEXTURE_2D]
      else [0x8515, 0x8516, 0x8517, 0x8518, 0x8519, 0x851A]
    evalGLTexelFormat := fun _ => ⟨0x8058, 0x1908, 0x1401⟩
    getGLTextureType := fun _ => GL_TEXTURE_2D
    initContentStamp := 0
    initSamplerStamp := 0
    parentSyncGPUObject := fun _ s => Outcome.ok (GLTexturePtr.parent 0, s) }

/-- A sampler with mips 1 to 3 and a comparison function. -/
def exampleSampler : Sampler :=
  { filter := 0, comparisonFunction := 3, wrapModeU := 0, wrapModeV := 0, wrapModeW := 0
    borderColor := ⟨GLfloat.ofInt 1, GLfloat.ofInt 1, GLfloat.ofInt 1, GLfloat.ofInt 1⟩
    mipOffset := 0, minMip := 1, maxMip := 3, maxAnisotropy := 16 }

/-- A defined 16 x 16 resource texture without a backend object. -/
def exampleTexture : Texture :=
  { usageType := TextureUsageType.RESOURCE
    isDefined := true
    stamp := 2
    dataStamp := 5
    samplerStamp := 1
    sampler := exampleSampler
    texelFormat := 0
    evalTotalSize := 1360
    evalMipDimensions := fun l => ⟨16 / 2 ^ l, 16 / 2 ^ l, 1⟩
    gpuObject := none }

/-- A state with texture 7 bound to `GL_TEXTURE_2D`. -/
def exampleState : State :=
  { binding2D := 7, bindingCubeMap := 0, nextName := 9, calls := [], textureGPUCount := 4 }

/-- A backend object for the 2D target. -/
def exampleObject : GL41Texture :=
  { _target := GL_TEXTURE_2D, _texture := 8, _storageStamp := 2, _contentStamp := 0
    _samplerStamp := 0, _size := 1360 }

end gpu

/-! ## GL45Backend.h: the `size()` members -/

namespace gpu.gl45

/-- The data members of `GL45FixedAllocationTexture`. -/
structure GL45FixedAllocationTexture where
  _size : Nat
deriving DecidableEq, Repr

/-- The member `GL45FixedAllocationTexture::size`. -/
def GL45FixedAllocationTexture.size (this : GL45FixedAllocationTexture) : Nat :=
  this._size

/-- The data members of `GL45ResourceTexture`. -/
structure GL45ResourceTexture where
  _size : Nat
  _allocatedMip : Nat
  _maxAllocatedMip : Nat
  _populatedMip : Nat
deriving DecidableEq, Repr

/-- The member `GL45ResourceTexture::size`. -/
def GL45ResourceTexture.size (_this : GL45ResourceTexture) : Nat :=
  0

def DEFAULT_PAGE_DIMENSION : Nat := 128
def DEFAULT_MAX_SPARSE_LEVEL : Nat := 0xFFFF

/-- The data members of `GL45SparseResourceTexture`. -/
structure GL45SparseResourceTexture where
  _allocatedPages : Nat
  _pageBytes : Nat
  _pageDimensions : gpu.Vec3u
  _maxSparseLevel : Nat
deriving DecidableEq, Repr

/-- The default member initialisers of `GL45SparseResourceTexture`. -/
def GL45SparseResourceTexture.init : GL45SparseResourceTexture :=
  { _allocatedPages := 0
    _pageBytes := 0
    _pageDimensions := ⟨DEFAULT_PAGE_DIMENSION, DEFAULT_PAGE_DIMENSION, DEFAULT_PAGE_DIMENSION⟩
    _maxSparseLevel := DEFAULT_MAX_SPARSE_LEVEL }

/-- The member `GL45SparseResourceTexture::size`: a product of two `uint32_t`. -/
def GL45SparseResourceTexture.size (this : GL45SparseResourceTexture) : Nat :=
  (this._allocatedPages * this._pageBytes) % 2 ^ 32

end gpu.gl45

/-! # Theorems -/

namespace gpu.gl45

/-- C9: the size reported by a GL45 texture depends on its allocation class: the sparse
resource texture reports `(_allocatedPages * _pageBytes) mod 2^32`, which is 0 for the
default-initialised fields; the fixed-allocation texture reports its `_size`; the resource
texture reports 0 whatever its fields hold. -/
theorem size_by_allocation_class :
    (∀ t : GL45SparseResourceTexture, t.size = (t._allocatedPages * t._pageBytes) % 2 ^ 32) ∧
    GL45SparseResourceTexture.init._allocatedPages = 0 ∧
    GL45SparseResourceTexture.init._pageBytes = 0 ∧
    GL45SparseResourceTexture.init.size = 0 ∧
    (∀ t : GL45FixedAllocationTexture, t.size = t._size) ∧
    (∀ size allocatedMip maxAllocatedMip populatedMip : Nat,
      (GL45ResourceTexture.mk size allocatedMip maxAllocatedMip populatedMip).size = 0) := by
  refine ⟨fun _ => rfl, rfl, rfl, ?_, fun _ => rfl, fun _ _ _ _ => rfl⟩
  simp [GL45SparseResourceTexture.size, GL45SparseResourceTexture.init]

end gpu.gl45

namespace gpu

/-! ## Stamps -/

theorem IntType.two_pow_bits (t : IntType) : (2 : Int) ^ t.bits = 2 * 2 ^ (t.bits - 1) := by
  have h := t.pos
  obtain ⟨k, hk⟩ : ∃ k, t.bits = k + 1 := ⟨t.bits - 1, by omega⟩
  rw [hk, pow_succ]
  simp [mul_comm]

/-- Adding one to a representable value below the maximum does not overflow. -/
theorem IntType.wrap_succ (t : IntType) (x : Int) (hx : t.Holds x) (hlt : x < t.maxVal) :
    t.wrap (x + 1) = x + 1 := by
  have h2 := t.two_pow_bits
  have hp : (0 : Int) < 2 ^ (t.bits - 1) := by positivity
  unfold IntType.Holds IntType.minVal at hx
  unfold IntType.maxVal at hx hlt
  unfold IntType.wrap
  generalize (2 : Int) ^ (t.bits - 1) = half at *
  generalize (2 : Int) ^ t.bits = m at *
  cases hsg : t.signed
  · simp only [hsg, Bool.false_eq_true, if_false] at hx hlt ⊢
    exact Int.emod_eq_of_lt (by omega) (by omega)
  · simp only [hsg, if_true] at hx hlt ⊢
    rw [Int.emod_eq_of_lt (by omega) (by omega)]
    omega

/-! ## Sequencing -/

theorem Outcome.bind_eq_ok {α β : Type} {r : Outcome α} {k : α → Outcome β} {b : β}
    (h : r.bind k = Outcome.ok b) : ∃ a, r = Outcome.ok a ∧ k a = Outcome.ok b := by
  cases r with
  | ok a => exact ⟨a, rfl, h⟩
  | fatal => simp [Outcome.bind] at h
  | timeout => simp [Outcome.bind] at h

/-- The object a returning constructor run produces. -/
theorem GL41Texture.new_fields {H : Headers} {fuel : Nat} {texture : Texture} {s s1 : State}
    {object : GL41Texture} (h : GL41Texture.new H fuel texture s = Outcome.ok (object, s1)) :
    object = { _target := H.getGLTextureType texture
               _texture := s.nextName
               _storageStamp := texture.stamp
               _contentStamp := H.initContentStamp
               _samplerStamp := H.initSamplerStamp
               _size := texture.evalTotalSize } := by
  unfold GL41Texture.new at h
  obtain ⟨r, -, hr⟩ := Outcome.bind_eq_ok h
  simp only [Outcome.ok.injEq, Prod.mk.injEq] at hr
  rw [← hr.1]
  rfl

/-! ## Content and sampler sync -/

/-- C5: `syncContent` transfers no texture data: it issues no GL call and leaves the state
outside the object as it was; in the object it changes only `_contentStamp`, which becomes
the texture's data stamp plus one (computed in the stamp type, so the exact sum whenever
the data stamp is below the maximum stamp); `_samplerStamp`, `_storageStamp` and the value
of `size()` are unchanged, and for an object the constructor built for the texture `size()`
is the `evalTotalSize()` captured then, as a `uint32`. -/
theorem syncContent_changes_only_content_stamp (H : Headers) (this : GL41Texture)
    (tex : Texture) (s : State) :
    (this.syncContent H tex s).2 = s ∧
    issuedBetween s (this.syncContent H tex s).2 = [] ∧
    (this.syncContent H tex s).1
      = { this with _contentStamp := H.stampType.wrap (tex.dataStamp + 1) } ∧
    (H.stampType.Holds tex.dataStamp → tex.dataStamp < H.stampType.maxVal →
      (this.syncContent H tex s).1._contentStamp = tex.dataStamp + 1) ∧
    (this.syncContent H tex s).1._samplerStamp = this._samplerStamp ∧
    (this.syncContent H tex s).1._storageStamp = this._storageStamp ∧
    (this.syncContent H tex s).1.size = this.size ∧
    (∀ fuel s0 s1, GL41Texture.new H fuel tex s0 = Outcome.ok (this, s1) →
      this.size = toUint32 tex.evalTotalSize ∧
      (this.syncContent H tex s).1.size = toUint32 tex.evalTotalSize) := by
  refine ⟨rfl, ?_, rfl, ?_, rfl, rfl, rfl, ?_⟩
  · simp [issuedBetween, GL41Texture.syncContent]
  · intro hx hlt
    exact H.stampType.wrap_succ _ hx hlt
  · intro fuel s0 s1 h
    have hf := GL41Texture.new_fields h
    subst hf
    exact ⟨rfl, rfl⟩

/-- Witness for C5: data stamp 5 gives content stamp 6, and an object built for the sample
texture keeps the size 1360. -/
theorem syncContent_changes_only_content_stamp_witness :
    (exampleObject.syncContent exampleHeaders exampleTexture exampleState).1._contentStamp
      = 5 + 1 ∧
    ({ exampleObject with _texture := 9 } : GL41Texture).size = toUint32 1360 :=
  ⟨(syncContent_changes_only_content_stamp exampleHeaders exampleObject exampleTexture
      exampleState).2.2.2.1 (by decide) (by decide),
   ((syncContent_changes_only_content_stamp exampleHeaders
      { exampleObject with _texture := 9 } exampleTexture exampleState).2.2.2.2.2.2.2
      4 exampleState _ rfl).1⟩

/-- The calls `syncSampler` issues, and the object it leaves. -/
theorem GL41Texture.syncSampler_object (H : Headers) (this : GL41Texture) (tex : Texture)
    (s : State) :
    (this.syncSampler H tex s).1
      = { this with _samplerStamp := H.stampType.wrap (tex.samplerStamp + 1) } := rfl

/-- C6: for every object and every texture whose data stamp and sampler stamp are stamp
values below the maximum, once `syncContent` and `syncSampler` have both run, in either
order and with the texture unchanged, `_contentStamp` is strictly greater than the data
stamp, `_samplerStamp` is strictly greater than the sampler stamp, and `isOutdated` returns
false. -/
theorem synced_object_is_not_outdated (H : Headers) (this : GL41Texture) (tex : Texture)
    (s : State)
    (hd : H.stampType.Holds tex.dataStamp) (hs : H.stampType.Holds tex.samplerStamp)
    (hdmax : tex.dataStamp < H.stampType.maxVal)
    (hsmax : tex.samplerStamp < H.stampType.maxVal) :
    (∀ o : GL41Texture,
      (o = ((this.syncContent H tex s).1.syncSampler H tex (this.syncContent H tex s).2).1 ∨
       o = ((this.syncSampler H tex s).1.syncContent H tex (this.syncSampler H tex s).2).1) →
      tex.dataStamp < o._contentStamp ∧ tex.samplerStamp < o._samplerStamp ∧
      o.isOutdated tex = false) := by
  have h1 := H.stampType.wrap_succ _ hd hdmax
  have h2 := H.stampType.wrap_succ _ hs hsmax
  intro o ho
  have ho2 : o = { this with _contentStamp := tex.dataStamp + 1
                             _samplerStamp := tex.samplerStamp + 1 } := by
    rcases ho with rfl | rfl
    · simp only [GL41Texture.syncSampler_object, GL41Texture.syncContent, h1, h2]
    · simp only [GL41Texture.syncSampler_object, GL41Texture.syncContent, h1, h2]
  subst ho2
  refine ⟨by simp, by simp, ?_⟩
  simp [GL41Texture.isOutdated]

/-- Witness for C6 on the sample texture (data stamp 5, sampler stamp 1). -/
theorem synced_object_is_not_outdated_witness :
    ((exampleObject.syncContent exampleHeaders exampleTexture exampleState).1.syncSampler
      exampleHeaders exampleTexture
      (exampleObject.syncContent exampleHeaders exampleTexture exampleState).2).1.isOutdated
        exampleTexture = false :=
  (synced_object_is_not_outdated exampleHeaders exampleObject exampleTexture exampleState
    (by decide) (by decide) (by decide) (by decide) _ (Or.inl rfl)).2.2

/-- The list of calls `syncSampler` appends. -/
theorem GL41Texture.syncSampler_issued (H : Headers) (this : GL41Texture) (tex : Texture)
    (s : State) :
    issuedBetween s (this.syncSampler H tex s).2 =
      [ GLCall.texParameteri this._target GL_TEXTURE_MIN_FILTER
          (H.FILTER_MODES tex.sampler.filter).minFilter,
        GLCall.texParameteri this._target GL_TEXTURE_MAG_FILTER
          (H.FILTER_MODES tex.sampler.filter).magFilter ]
      ++ (if H.doComparison tex.sampler then
            [ GLCall.texParameteri this._target GL_TEXTURE_COMPARE_MODE GL_COMPARE_R_TO_TEXTURE,
              GLCall.texParameteri this._target GL_TEXTURE_COMPARE_FUNC
                (H.COMPARISON_TO_GL tex.sampler.comparisonFunction) ]
          else [ GLCall.texParameteri this._target GL_TEXTURE_COMPARE_MODE GL_NONE ])
      ++ [ GLCall.texParameteri this._target GL_TEXTURE_WRAP_S
             (H.WRAP_MODES tex.sampler.wrapModeU),
           GLCall.texParameteri this._target GL_TEXTURE_WRAP_T
             (H.WRAP_MODES tex.sampler.wrapModeV),
           GLCall.texParameteri this._target GL_TEXTURE_WRAP_R
             (H.WRAP_MODES tex.sampler.wrapModeW),
           GLCall.texParameterfv this._target GL_TEXTURE_BORDER_COLOR tex.sampler.borderColor,
           GLCall.texParameteri this._target GL_TEXTURE_BASE_LEVEL
             (toUint16 tex.sampler.mipOffset),
           GLCall.texParameterf this._target GL_TEXTURE_MIN_LOD
             (GLfloat.ofInt tex.sampler.minMip),
           GLCall.texParameterf this._target GL_TEXTURE_MAX_LOD
             (if tex.sampler.maxMip = H.MAX_MIP_LEVEL then GLfloat.ofInt 1000
              else GLfloat.ofInt tex.sampler.maxMip),
           GLCall.texParameterf this._target GL_TEXTURE_MAX_ANISOTROPY_EXT
             (GLfloat.ofInt tex.sampler.maxAnisotropy) ] := by
  unfold issuedBetween GL41Texture.syncSampler glCall
  by_cases hc : H.doComparison tex.sampler = true
  · simp [hc, List.append_assoc]
  · simp [hc, List.append_assoc]

/-- C7: among the calls of `syncSampler`, `GL_TEXTURE_MAX_LOD` is set once, to 1000 when the
sampler's `maxMip` equals `Sampler::MAX_MIP_LEVEL` and to `maxMip` itself otherwise;
`GL_TEXTURE_MIN_LOD` is set once, to the sampler's `minMip`; `GL_TEXTURE_BASE_LEVEL` is set
once, to the sampler's `mipOffset` as a `uint16`, which is `mipOffset` itself for every
value that type holds. -/
theorem syncSampler_lod_parameters (H : Headers) (this : GL41Texture) (tex : Texture)
    (s : State) :
    (tex.sampler.maxMip = H.MAX_MIP_LEVEL →
      settingsOf GL_TEXTURE_MAX_LOD (issuedBetween s (this.syncSampler H tex s).2)
        = [GLCall.texParameterf this._target GL_TEXTURE_MAX_LOD (GLfloat.ofInt 1000)]) ∧
    (tex.sampler.maxMip ≠ H.MAX_MIP_LEVEL →
      settingsOf GL_TEXTURE_MAX_LOD (issuedBetween s (this.syncSampler H tex s).2)
        = [GLCall.texParameterf this._target GL_TEXTURE_MAX_LOD
            (GLfloat.ofInt tex.sampler.maxMip)]) ∧
    settingsOf GL_TEXTURE_MIN_LOD (issuedBetween s (this.syncSampler H tex s).2)
      = [GLCall.texParameterf this._target GL_TEXTURE_MIN_LOD
          (GLfloat.ofInt tex.sampler.minMip)] ∧
    settingsOf GL_TEXTURE_BASE_LEVEL (issuedBetween s (this.syncSampler H tex s).2)
      = [GLCall.texParameteri this._target GL_TEXTURE_BASE_LEVEL
          (toUint16 tex.sampler.mipOffset)] ∧
    (tex.sampler.mipOffset < 2 ^ 16 →
      settingsOf GL_TEXTURE_BASE_LEVEL (issuedBetween s (this.syncSampler H tex s).2)
        = [GLCall.texParameteri this._target GL_TEXTURE_BASE_LEVEL tex.sampler.mipOffset]) := by
  have hoff : tex.sampler.mipOffset < 2 ^ 16 → toUint16 tex.sampler.mipOffset
      = tex.sampler.mipOffset := fun h => Nat.mod_eq_of_lt h
  rw [GL41Texture.syncSampler_issued]
  by_cases hc : H.doComparison tex.sampler = true <;>
    by_cases hm : tex.sampler.maxMip = H.MAX_MIP_LEVEL <;>
    refine ⟨?_, ?_, ?_, ?_, ?_⟩ <;>
    (try intro h) <;>
    (try rw [← hoff h]) <;>
    simp_all [settingsOf, GLCall.sets, List.filter, GL_TEXTURE_MAX_LOD, GL_TEXTURE_MIN_LOD,
      GL_TEXTURE_BASE_LEVEL, GL_TEXTURE_MIN_FILTER, GL_TEXTURE_MAG_FILTER,
      GL_TEXTURE_COMPARE_MODE, GL_TEXTURE_COMPARE_FUNC, GL_TEXTURE_WRAP_S, GL_TEXTURE_WRAP_T,
      GL_TEXTURE_WRAP_R, GL_TEXTURE_BORDER_COLOR, GL_TEXTURE_MAX_ANISOTROPY_EXT]

/-- Witness for C7: the sample sampler has `maxMip = 3`, and with `maxMip = 255` the
maximum level of detail is 1000. -/
theorem syncSampler_lod_parameters_witness :
    settingsOf GL_TEXTURE_MAX_LOD (issuedBetween exampleState
        (exampleObject.syncSampler exampleHeaders
          { exampleTexture with sampler := { exampleSampler with maxMip := 255 } }
          exampleState).2)
      = [GLCall.texParameterf GL_TEXTURE_2D GL_TEXTURE_MAX_LOD (GLfloat.ofInt 1000)] ∧
    settingsOf GL_TEXTURE_MAX_LOD (issuedBetween exampleState
        (exampleObject.syncSampler exampleHeaders exampleTexture exampleState).2)
      = [GLCall.texParameterf GL_TEXTURE_2D GL_TEXTURE_MAX_LOD (GLfloat.ofInt 3)] ∧
    settingsOf GL_TEXTURE_BASE_LEVEL (issuedBetween exampleState
        (exampleObject.syncSampler exampleHeaders exampleTexture exampleState).2)
      = [GLCall.texParameteri GL_TEXTURE_2D GL_TEXTURE_BASE_LEVEL 0] :=
  ⟨(syncSampler_lod_parameters exampleHeaders exampleObject
      { exampleTexture with sampler := { exampleSampler with maxMip := 255 } }
      exampleState).1 rfl,
   (syncSampler_lod_parameters exampleHeaders exampleObject exampleTexture
      exampleState).2.1 (by decide),
   (syncSampler_lod_parameters exampleHeaders exampleObject exampleTexture
      exampleState).2.2.2.2 (by decide)⟩

/-- C8: `syncSampler` sets `GL_TEXTURE_COMPARE_FUNC` if and only if the sampler's
`doComparison()` is true.  In that case `GL_TEXTURE_COMPARE_MODE` is set to
`GL_COMPARE_R_TO_TEXTURE` and the compare function to
`COMPARISON_TO_GL[getComparisonFunction()]`; otherwise `GL_TEXTURE_COMPARE_MODE` is set to
`GL_NONE` and no call touches the compare function. -/
theorem syncSampler_comparison (H : Headers) (this : GL41Texture) (tex : Texture)
    (s : State) :
    (settingsOf GL_TEXTURE_COMPARE_FUNC (issuedBetween s (this.syncSampler H tex s).2) ≠ []
      ↔ H.doComparison tex.sampler = true) ∧
    (H.doComparison tex.sampler = true →
      settingsOf GL_TEXTURE_COMPARE_MODE (issuedBetween s (this.syncSampler H tex s).2)
        = [GLCall.texParameteri this._target GL_TEXTURE_COMPARE_MODE
            GL_COMPARE_R_TO_TEXTURE] ∧
      settingsOf GL_TEXTURE_COMPARE_FUNC (issuedBetween s (this.syncSampler H tex s).2)
        = [GLCall.texParameteri this._target GL_TEXTURE_COMPARE_FUNC
            (H.COMPARISON_TO_GL tex.sampler.comparisonFunction)]) ∧
    (H.doComparison tex.sampler = false →
      settingsOf GL_TEXTURE_COMPARE_MODE (issuedBetween s (this.syncSampler H tex s).2)
        = [GLCall.texParameteri this._target GL_TEXTURE_COMPARE_MODE GL_NONE] ∧
      settingsOf GL_TEXTURE_COMPARE_FUNC (issuedBetween s (this.syncSampler H tex s).2)
        = []) := by
  rw [GL41Texture.syncSampler_issued]
  by_cases hc : H.doComparison tex.sampler = true <;>
    simp [hc, settingsOf, GLCall.sets, List.filter, GL_TEXTURE_MAX_LOD, GL_TEXTURE_MIN_LOD,
      GL_TEXTURE_BASE_LEVEL, GL_TEXTURE_MIN_FILTER, GL_TEXTURE_MAG_FILTER,
      GL_TEXTURE_COMPARE_MODE, GL_TEXTURE_COMPARE_FUNC, GL_TEXTURE_WRAP_S, GL_TEXTURE_WRAP_T,
      GL_TEXTURE_WRAP_R, GL_TEXTURE_BORDER_COLOR, GL_TEXTURE_MAX_ANISOTROPY_EXT]

/-- Witness for C8: the sample sampler compares (function 3); with function 7 it does not. -/
theorem syncSampler_comparison_witness :
    settingsOf GL_TEXTURE_COMPARE_FUNC (issuedBetween exampleState
        (exampleObject.syncSampler exampleHeaders exampleTexture exampleState).2)
      = [GLCall.texParameteri GL_TEXTURE_2D GL_TEXTURE_COMPARE_FUNC 0x0203] ∧
    settingsOf GL_TEXTURE_COMPARE_FUNC (issuedBetween exampleState
        (exampleObject.syncSampler exampleHeaders
          { exampleTexture with sampler := { exampleSampler with comparisonFunction := 7 } }
          exampleState).2)
      = [] :=
  ⟨((syncSampler_comparison exampleHeaders exampleObject exampleTexture
      exampleState).2.1 rfl).2,
   ((syncSampler_comparison exampleHeaders exampleObject
      { exampleTexture with sampler := { exampleSampler with comparisonFunction := 7 } }
      exampleState).2.2 rfl).2⟩

/-! ## Binding preservation -/

theorem toGLuint_toGLint (n : Nat) (h : n < 2 ^ 32) : toGLuint (toGLint n) = n := by
  unfold toGLuint toGLint
  rw [Nat.mod_eq_of_lt h]
  have h1 : n < 4294967296 := h
  have e : ((2 : Int) ^ 32) = 4294967296 := by norm_num
  rw [e]
  split
  · rw [Int.emod_eq_of_lt (by omega) (by omega)]; simp
  · rename_i hge
    have hge1 : 2147483648 ≤ n := by
      have : ¬ n < 2147483648 := hge
      omega
    have : ((n : Int) - 4294967296) % 4294967296 = n := by
      rw [Int.sub_emod, Int.emod_self, sub_zero, Int.emod_emod,
        Int.emod_eq_of_lt (by omega) (by omega)]
    rw [this]; simp

theorem glBindTexture_bound (target : GLenum) (texture : GLuint) (s : State)
    (ht : target = GL_TEXTURE_2D ∨ target = GL_TEXTURE_CUBE_MAP) :
    (glBindTexture target texture s).bound target = some texture := by
  rcases ht with rfl | rfl <;> simp [glBindTexture, State.bound, GL_TEXTURE_2D, GL_TEXTURE_CUBE_MAP]

/-- C4: for an object whose target is `GL_TEXTURE_2D` or `GL_TEXTURE_CUBE_MAP` there is one
state `s0`, in which the object's own texture is bound to its target, such that for every
callback `f` the call `withPreservedTexture(f)` is one run of `f` from `s0` followed by one
`glBindTexture`: it returns exactly when that run of `f` returns, with what `f` produced,
and then the texture bound to the target is the one that was bound before the call,
whatever `f` left bound there. -/
theorem withPreservedTexture_restores_binding (this : GL41Texture) (s : State)
    (ht : this._target = GL_TEXTURE_2D ∨ this._target = GL_TEXTURE_CUBE_MAP)
    (hwf : s.WF) :
    ∃ (s0 : State) (before : GLuint),
      s.bound this._target = some before ∧
      s0.bound this._target = some this._texture ∧
      ∀ (α : Type) (f : State → Outcome (α × State)),
        this.withPreservedTexture f s
          = (f s0).bind (fun r => Outcome.ok (r.1, glBindTexture this._target before r.2)) ∧
        (∀ a s1, f s0 = Outcome.ok (a, s1) →
          ∃ s2, this.withPreservedTexture f s = Outcome.ok (a, s2) ∧
            s2.bound this._target = some before) ∧
        (∀ a s2, this.withPreservedTexture f s = Outcome.ok (a, s2) →
          s2.bound this._target = some before ∧ ∃ s1, f s0 = Outcome.ok (a, s1)) := by
  have key : ∃ (s0 : State) (before : GLuint),
      s.bound this._target = some before ∧
      s0.bound this._target = some this._texture ∧
      ∀ (α : Type) (f : State → Outcome (α × State)),
        this.withPreservedTexture f s
          = (f s0).bind (fun r => Outcome.ok (r.1, glBindTexture this._target before r.2)) := by
    rcases ht with h2 | hc
    · refine ⟨glBindTexture this._target this._texture
        (glGetIntegerv GL_TEXTURE_BINDING_2D (-1) s).2, s.binding2D, ?_, ?_, ?_⟩
      · simp [State.bound, h2]
      · exact glBindTexture_bound _ _ _ (Or.inl h2)
      · intro α f
        simp [GL41Texture.withPreservedTexture, h2, Outcome.bind, glGetIntegerv,
          GL_TEXTURE_BINDING_2D, GL_TEXTURE_BINDING_CUBE_MAP, toGLuint_toGLint _ hwf.1]
    · refine ⟨glBindTexture this._target this._texture
        (glGetIntegerv GL_TEXTURE_BINDING_CUBE_MAP (-1) s).2, s.bindingCubeMap, ?_, ?_, ?_⟩
      · simp [State.bound, hc, GL_TEXTURE_2D, GL_TEXTURE_CUBE_MAP]
      · exact glBindTexture_bound _ _ _ (Or.inr hc)
      · intro α f
        simp [GL41Texture.withPreservedTexture, hc, Outcome.bind, glGetIntegerv,
          GL_TEXTURE_BINDING_2D, GL_TEXTURE_BINDING_CUBE_MAP, GL_TEXTURE_2D,
          GL_TEXTURE_CUBE_MAP, toGLuint_toGLint _ hwf.2]
  obtain ⟨s0, before, hb, h0, heq⟩ := key
  refine ⟨s0, before, hb, h0, fun α f => ⟨heq α f, ?_, ?_⟩⟩
  · intro a s1 hf
    refine ⟨glBindTexture this._target before s1, ?_, glBindTexture_bound _ _ _ ht⟩
    rw [heq, hf]; rfl
  · intro a s2 hr
    rw [heq] at hr
    obtain ⟨r, hfr, hk⟩ := Outcome.bind_eq_ok hr
    simp only [Outcome.ok.injEq, Prod.mk.injEq] at hk
    refine ⟨?_, r.2, ?_⟩
    · rw [← hk.2]; exact glBindTexture_bound _ _ _ ht
    · rw [hfr, ← hk.1]

/-- Witness for C4: a callback that binds texture 42 to `GL_TEXTURE_2D`; texture 7 is
bound again afterwards. -/
theorem withPreservedTexture_restores_binding_witness :
    exampleState.WF ∧
    ∃ s2, exampleObject.withPreservedTexture
        (fun st => Outcome.ok ((), glBindTexture GL_TEXTURE_2D 42 st)) exampleState
          = Outcome.ok ((), s2) ∧
      s2.bound GL_TEXTURE_2D = some 7 := by
  refine ⟨by decide, ?_⟩
  obtain ⟨s0, before, hb, _, h⟩ :=
    withPreservedTexture_restores_binding exampleObject exampleState (Or.inl rfl) (by decide)
  have hbefore : before = 7 := by
    have : exampleState.bound GL_TEXTURE_2D = some 7 := rfl
    exact Option.some.inj (hb.symm.trans this)
  obtain ⟨s2, h1, h2⟩ := (h Unit (fun st => Outcome.ok ((), glBindTexture GL_TEXTURE_2D 42 st))).2.1
    () (glBindTexture GL_TEXTURE_2D 42 s0) rfl
  exact ⟨s2, h1, by rw [← hbefore]; exact h2⟩

/-! ## Mip storage -/

theorem allocateFaces_calls (targets : List GLenum) (level : Int) (texelFormat : GLTexelFormat)
    (dimensions : Vec3u) (s : State) :
    allocateFaces targets level texelFormat dimensions s
      = { s with calls := s.calls ++ targets.map (fun target =>
            GLCall.texImage2D target level texelFormat.internalFormat dimensions.x
              dimensions.y 0 texelFormat.format texelFormat.type none) } := by
  unfold allocateFaces
  induction targets generalizing s with
  | nil => simp
  | cons t ts ih =>
    rw [List.foldl_cons, ih]
    simp [glCall, List.append_assoc]

/-- The storage loop from `l`: with `n = maxMip + 1 - l` iterations ahead, `maxMip` below
the largest `uint16_t` and more than `n` units of fuel, it returns, having appended the
calls of the mips `l, l + 1, ..., maxMip` in this order. -/
theorem storageLoop_run (targets : List GLenum) (texelFormat : GLTexelFormat)
    (evalMipDimensions : Nat → Vec3u) (minMip maxMip : Nat) :
    ∀ (n l fuel : Nat) (s : State), n = maxMip + 1 - l → (0 < n → maxMip < 65535) →
      n < fuel →
      storageLoop targets texelFormat evalMipDimensions minMip maxMip fuel l s
        = Outcome.ok { s with calls := s.calls ++
            (List.range' l n).flatMap (mipCalls targets texelFormat evalMipDimensions minMip) } := by
  intro n
  induction n with
  | zero =>
    intro l fuel s hn _ hf
    obtain ⟨k, rfl⟩ : ∃ k, fuel = k + 1 := ⟨fuel - 1, by omega⟩
    have hl : ¬ l ≤ maxMip := by omega
    simp [storageLoop, hl]
  | succ n ih =>
    intro l fuel s hn hmax hf
    obtain ⟨k, rfl⟩ : ∃ k, fuel = k + 1 := ⟨fuel - 1, by omega⟩
    have hl : l ≤ maxMip := by omega
    have hm := hmax (Nat.succ_pos n)
    have hw : toUint16 (l + 1) = l + 1 := by
      unfold toUint16
      exact Nat.mod_eq_of_lt (by norm_num; omega)
    rw [storageLoop, if_pos hl]
    simp only [hw]
    rw [ih (l + 1) k _ (by omega) (fun _ => hm) (by omega), allocateFaces_calls]
    simp [List.range'_succ, List.flatMap_cons, mipCalls, List.append_assoc]

/-- The loop does not return for `maxMip = 65535`: the counter wraps before it can pass
`maxMip`. -/
theorem storageLoop_wraps (targets : List GLenum) (texelFormat : GLTexelFormat)
    (evalMipDimensions : Nat → Vec3u) (minMip : Nat) :
    ∀ (fuel l : Nat) (s : State), l < 65536 →
      storageLoop targets texelFormat evalMipDimensions minMip 65535 fuel l s
        = Outcome.timeout := by
  intro fuel
  induction fuel with
  | zero => intro l s _; rfl
  | succ k ih =>
    intro l s hl
    have hle : l ≤ 65535 := by omega
    rw [storageLoop, if_pos hle]
    exact ih _ _ (by unfold toUint16; exact Nat.mod_lt _ (by norm_num))

/-! ## What a run leaves of the counters -/

theorem SameCounters.refl (s : State) : SameCounters s s := ⟨rfl, rfl⟩

theorem SameCounters.trans {a b c : State} (h1 : SameCounters a b) (h2 : SameCounters b c) :
    SameCounters a c :=
  ⟨h2.1.trans h1.1, h2.2.trans h1.2⟩

theorem glCall_sameCounters (c : GLCall) (s : State) : SameCounters s (glCall c s) :=
  ⟨rfl, rfl⟩

theorem glBindTexture_sameCounters (target : GLenum) (texture : GLuint) (s : State) :
    SameCounters s (glBindTexture target texture s) := by
  unfold glBindTexture SameCounters
  split
  · exact ⟨rfl, rfl⟩
  · split <;> exact ⟨rfl, rfl⟩

theorem storageLoop_sameCounters (targets : List GLenum) (texelFormat : GLTexelFormat)
    (evalMipDimensions : Nat → Vec3u) (minMip maxMip : Nat) :
    ∀ (fuel l : Nat) (s s1 : State),
      storageLoop targets texelFormat evalMipDimensions minMip maxMip fuel l s = Outcome.ok s1 →
      SameCounters s s1 := by
  intro fuel
  induction fuel with
  | zero => intro l s s1 h; simp [storageLoop] at h
  | succ k ih =>
    intro l s s1 h
    rw [storageLoop] at h
    split at h
    · have h2 := ih _ _ _ h
      rw [allocateFaces_calls] at h2
      exact h2
    · simp only [Outcome.ok.injEq] at h
      rw [← h]
      exact SameCounters.refl s

/-- What `withPreservedTexture` is for a supported target: a binding query, binding the
object's texture, the callback, and binding what the query returned. -/
theorem GL41Texture.withPreservedTexture_run {α : Type} (this : GL41Texture)
    (f : State → Outcome (α × State)) (s : State)
    (ht : this._target = GL_TEXTURE_2D ∨ this._target = GL_TEXTURE_CUBE_MAP) :
    ∃ (q : GLenum) (restored : GLuint),
      this.withPreservedTexture f s
        = (f (glBindTexture this._target this._texture (glCall (GLCall.getIntegerv q) s))).bind
            (fun r => Outcome.ok (r.1, glBindTexture this._target restored r.2)) := by
  rcases ht with h2 | hc
  · exact ⟨GL_TEXTURE_BINDING_2D, toGLuint (toGLint s.binding2D), by
      simp [GL41Texture.withPreservedTexture, h2, Outcome.bind, glGetIntegerv, glCall,
        GL_TEXTURE_BINDING_2D, GL_TEXTURE_BINDING_CUBE_MAP]⟩
  · exact ⟨GL_TEXTURE_BINDING_CUBE_MAP, toGLuint (toGLint s.bindingCubeMap), by
      simp [GL41Texture.withPreservedTexture, hc, Outcome.bind, glGetIntegerv, glCall,
        GL_TEXTURE_BINDING_2D, GL_TEXTURE_BINDING_CUBE_MAP, GL_TEXTURE_2D,
        GL_TEXTURE_CUBE_MAP]⟩

/-- A returning `withPreservedTexture` had a supported target. -/
theorem GL41Texture.withPreservedTexture_target {α : Type} {this : GL41Texture}
    {f : State → Outcome (α × State)} {s : State} {r : α × State}
    (h : this.withPreservedTexture f s = Outcome.ok r) :
    this._target = GL_TEXTURE_2D ∨ this._target = GL_TEXTURE_CUBE_MAP := by
  by_contra hn
  push_neg at hn
  simp [GL41Texture.withPreservedTexture, hn.1, hn.2, Outcome.bind] at h

/-- A returning `withPreservedTexture` keeps the counters when its callback does. -/
theorem GL41Texture.withPreservedTexture_sameCounters {α : Type} {this : GL41Texture}
    {f : State → Outcome (α × State)} {s : State} {r : α × State}
    (hf : ∀ st a, f st = Outcome.ok a → SameCounters st a.2)
    (h : this.withPreservedTexture f s = Outcome.ok r) :
    SameCounters s r.2 ∧ ∃ st st1, f st = Outcome.ok (r.1, st1) := by
  obtain ⟨q, restored, heq⟩ :=
    this.withPreservedTexture_run f s (GL41Texture.withPreservedTexture_target h)
  rw [heq] at h
  obtain ⟨a, ha, hk⟩ := Outcome.bind_eq_ok h
  simp only [Outcome.ok.injEq] at hk
  rw [← hk]
  refine ⟨?_, _, a.2, ha⟩
  exact ((glCall_sameCounters _ s).trans (glBindTexture_sameCounters _ _ _)).trans
    ((hf _ _ ha).trans (glBindTexture_sameCounters _ _ _))

/-! ## The constructor -/

theorem GL41Texture.allocateStorage_sameCounters (H : Headers) (this : GL41Texture)
    (fuel : Nat) (tex : Texture) (st : State) (a : Unit × State)
    (h : this.allocateStorage H fuel tex st = Outcome.ok a) : SameCounters st a.2 := by
  unfold GL41Texture.allocateStorage at h
  obtain ⟨st1, h1, hk⟩ := Outcome.bind_eq_ok h
  simp only [Outcome.ok.injEq] at hk
  rw [← hk]
  exact storageLoop_sameCounters _ _ _ _ _ _ _ _ _ h1

/-- A returning constructor run has taken one texture name and counted one texture. -/
theorem GL41Texture.new_counters {H : Headers} {fuel : Nat} {texture : Texture} {s s1 : State}
    {object : GL41Texture} (h : GL41Texture.new H fuel texture s = Outcome.ok (object, s1)) :
    s1.textureGPUCount = s.textureGPUCount + 1 ∧ s1.nextName = s.nextName + 1 := by
  unfold GL41Texture.new at h
  obtain ⟨r, hr, hk⟩ := Outcome.bind_eq_ok h
  simp only [Outcome.ok.injEq, Prod.mk.injEq] at hk
  have hc := (GL41Texture.withPreservedTexture_sameCounters
    (GL41Texture.allocateStorage_sameCounters H _ fuel texture) hr).1
  rw [← hk.2]
  exact ⟨hc.1, hc.2⟩

/-- The constructor returns for a supported target when the storage loop has enough fuel
and `maxMip` is below the largest `uint16_t`. -/
theorem GL41Texture.new_returns (H : Headers) (fuel : Nat) (texture : Texture) (s : State)
    (ht : H.getGLTextureType texture = GL_TEXTURE_2D ∨
      H.getGLTextureType texture = GL_TEXTURE_CUBE_MAP)
    (hmax : 0 < texture.sampler.maxMip + 1 - toUint16 texture.sampler.minMip →
      texture.sampler.maxMip < 65535)
    (hf : texture.sampler.maxMip + 1 - toUint16 texture.sampler.minMip < fuel) :
    ∃ object s1, GL41Texture.new H fuel texture s = Outcome.ok (object, s1) := by
  unfold GL41Texture.new
  simp only []
  obtain ⟨q, restored, heq⟩ := GL41Texture.withPreservedTexture_run
    { _target := H.getGLTextureType texture
      _texture := (GL41Texture.allocate s).1
      _storageStamp := texture.stamp
      _contentStamp := H.initContentStamp
      _samplerStamp := H.initSamplerStamp
      _size := texture.evalTotalSize }
    (GL41Texture.allocateStorage H
      { _target := H.getGLTextureType texture
        _texture := (GL41Texture.allocate s).1
        _storageStamp := texture.stamp
        _contentStamp := H.initContentStamp
        _samplerStamp := H.initSamplerStamp
        _size := texture.evalTotalSize } fuel texture)
    (GL41Texture.allocate s).2 ht
  rw [heq]
  unfold GL41Texture.allocateStorage
  simp only []
  rw [storageLoop_run _ _ _ _ _ _ _ _ _ rfl hmax hf]
  exact ⟨_, _, rfl⟩

/-! ## The storage loop inside the constructor -/

theorem GL41Texture.syncSampler_sameCounters (H : Headers) (this : GL41Texture) (tex : Texture)
    (s : State) : SameCounters s (this.syncSampler H tex s).2 := by
  unfold GL41Texture.syncSampler glCall SameCounters
  simp only []
  split <;> exact ⟨rfl, rfl⟩

/-- The callback of `syncGPUObject` keeps the counters and, in the object, everything but
the two mutable stamps. -/
theorem syncStale_frame (H : Headers) (object : GL41Texture) (tex : Texture) (s : State) :
    SameCounters s (syncStale H object tex s).2 ∧
    (syncStale H object tex s).1._target = object._target ∧
    (syncStale H object tex s).1._texture = object._texture ∧
    (syncStale H object tex s).1._storageStamp = object._storageStamp ∧
    (syncStale H object tex s).1._size = object._size := by
  unfold syncStale
  simp only []
  split <;> split <;>
    first
    | exact ⟨GL41Texture.syncSampler_sameCounters _ _ _ _, rfl, rfl, rfl, rfl⟩
    | exact ⟨SameCounters.refl _, rfl, rfl, rfl, rfl⟩

/-- The second half of `syncGPUObject` returns the object it was given (up to its two
mutable stamps) and keeps the counters. -/
theorem syncIfOutdated_frame {H : Headers} {object : GL41Texture} {tex : Texture}
    {s s1 : State} {p : GLTexturePtr} (h : syncIfOutdated H object tex s = Outcome.ok (p, s1)) :
    SameCounters s s1 ∧
    ∃ o1, p = GLTexturePtr.gl41 o1 ∧ o1._target = object._target ∧
      o1._texture = object._texture ∧ o1._storageStamp = object._storageStamp ∧
      o1._size = object._size := by
  unfold syncIfOutdated at h
  split at h
  · obtain ⟨r, hr, hk⟩ := Outcome.bind_eq_ok h
    simp only [Outcome.ok.injEq, Prod.mk.injEq] at hk
    have hfr : ∀ st a, (fun st => Outcome.ok (syncStale H object tex st)) st = Outcome.ok a →
        SameCounters st a.2 := by
      intro st a ha
      simp only [Outcome.ok.injEq] at ha
      rw [← ha]
      exact (syncStale_frame H object tex st).1
    obtain ⟨hc, st, st1, hst⟩ := GL41Texture.withPreservedTexture_sameCounters hfr hr
    simp only [Outcome.ok.injEq] at hst
    have hfs := syncStale_frame H object tex st
    rw [hst] at hfs
    rw [← hk.2]
    exact ⟨hc, r.1, hk.1.symm, hfs.2⟩
  · simp only [Outcome.ok.injEq, Prod.mk.injEq] at h
    rw [← h.2]
    exact ⟨SameCounters.refl s, object, h.1.symm, rfl, rfl, rfl, rfl⟩

/-- The second half of `syncGPUObject` returns for an object with a supported target. -/
theorem syncIfOutdated_returns (H : Headers) (object : GL41Texture) (tex : Texture) (s : State)
    (ht : object._target = GL_TEXTURE_2D ∨ object._target = GL_TEXTURE_CUBE_MAP) :
    ∃ p s1, syncIfOutdated H object tex s = Outcome.ok (p, s1) := by
  unfold syncIfOutdated
  split
  · obtain ⟨q, restored, heq⟩ := GL41Texture.withPreservedTexture_run object
      (fun st => Outcome.ok (syncStale H object tex st)) s ht
    rw [heq]
    exact ⟨_, _, rfl⟩
  · exact ⟨_, _, rfl⟩

/-- The function `syncGPUObject` on a defined texture that is not external. -/
theorem GL41Backend.syncGPUObject_defined (H : Headers) (fuel : Nat) (tex : Texture)
    (s : State) (hdef : tex.isDefined = true)
    (hext : tex.usageType ≠ TextureUsageType.EXTERNAL) :
    GL41Backend.syncGPUObject H fuel (some tex) s
      = (fetchOrCreate H fuel tex s).bind fun c => syncIfOutdated H c.1 tex c.2 := by
  have hext2 : ¬ TextureUsageType.EXTERNAL = tex.usageType := fun e => hext e.symm
  simp [GL41Backend.syncGPUObject, hdef, hext2]

/-- C1: `syncGPUObject` returns null for a null texture pointer; for a texture whose usage
type is not `EXTERNAL` it returns null if and only if `isDefined()` is false, and an
undefined texture always gets null; whenever null is returned the state is the one before
the call, so no texture name was taken, the texture count was not incremented and no GL
call was issued. -/
theorem syncGPUObject_null_cases (H : Headers) (fuel : Nat) (s : State) :
    GL41Backend.syncGPUObject H fuel none s = Outcome.ok (GLTexturePtr.null, s) ∧
    ∀ tex : Texture, tex.usageType ≠ TextureUsageType.EXTERNAL →
      ((∃ s1, GL41Backend.syncGPUObject H fuel (some tex) s
          = Outcome.ok (GLTexturePtr.null, s1)) ↔ tex.isDefined = false) ∧
      (tex.isDefined = false →
        GL41Backend.syncGPUObject H fuel (some tex) s = Outcome.ok (GLTexturePtr.null, s)) ∧
      (∀ s1, GL41Backend.syncGPUObject H fuel (some tex) s
          = Outcome.ok (GLTexturePtr.null, s1) →
        s1 = s ∧ s1.nextName = s.nextName ∧ s1.textureGPUCount = s.textureGPUCount ∧
        issuedBetween s s1 = []) := by
  refine ⟨rfl, ?_⟩
  intro tex hext
  have hext2 : ¬ TextureUsageType.EXTERNAL = tex.usageType := fun e => hext e.symm
  have hundef : tex.isDefined = false →
      GL41Backend.syncGPUObject H fuel (some tex) s = Outcome.ok (GLTexturePtr.null, s) := by
    intro hd
    simp [GL41Backend.syncGPUObject, hd, hext2]
  have hnull : ∀ s1, GL41Backend.syncGPUObject H fuel (some tex) s
      = Outcome.ok (GLTexturePtr.null, s1) → tex.isDefined = false := by
    intro s1 h
    by_contra hd
    have hd1 : tex.isDefined = true := by simpa using hd
    rw [GL41Backend.syncGPUObject_defined H fuel tex s hd1 hext] at h
    obtain ⟨c, -, hk⟩ := Outcome.bind_eq_ok h
    obtain ⟨-, o1, ho1, -⟩ := syncIfOutdated_frame hk
    cases ho1
  refine ⟨⟨fun ⟨s1, h⟩ => hnull s1 h, fun hd => ⟨s, hundef hd⟩⟩, hundef, ?_⟩
  intro s1 h
  have h2 := hundef (hnull s1 h)
  rw [h2] at h
  simp only [Outcome.ok.injEq, Prod.mk.injEq, true_and] at h
  subst h
  exact ⟨rfl, rfl, rfl, by simp [issuedBetween]⟩

/-- Witness for C1: the sample texture, made undefined, gets null and the state is kept. -/
theorem syncGPUObject_null_cases_witness :
    GL41Backend.syncGPUObject exampleHeaders 4
        (some { exampleTexture with isDefined := false }) exampleState
      = Outcome.ok (GLTexturePtr.null, exampleState) ∧
    ¬ ∃ s1, GL41Backend.syncGPUObject exampleHeaders 4 (some exampleTexture) exampleState
      = Outcome.ok (GLTexturePtr.null, s1) :=
  ⟨((syncGPUObject_null_cases exampleHeaders 4 exampleState).2
      { exampleTexture with isDefined := false } (by decide)).2.1 rfl,
   fun h => Bool.noConfusion
     (((syncGPUObject_null_cases exampleHeaders 4 exampleState).2
       exampleTexture (by decide)).1.mp h)⟩

/-- C2: on a defined texture that is not external, a returning `syncGPUObject` has
constructed a `GL41Texture` (one texture name taken, one texture counted) if and only if the
texture had no object or the object's `_storageStamp` was strictly less than
`texture.getStamp()`.  The constructed object has `_storageStamp` equal to
`texture.getStamp()` and is returned; with it attached and the stamp unchanged the test
fetches it without constructing.  Otherwise the existing object is fetched and returned (only
its content and sampler stamps can differ) and the counters are as before.  The call returns
in the second case for an object with a supported target, and in the first case for a
supported target when the storage loop can finish (`maxMip` below the largest `uint16_t`,
enough steps). -/
theorem syncGPUObject_constructs_iff_stale (H : Headers) (fuel : Nat) (tex : Texture)
    (s : State) (hdef : tex.isDefined = true)
    (hext : tex.usageType ≠ TextureUsageType.EXTERNAL) :
    (∀ p s1, GL41Backend.syncGPUObject H fuel (some tex) s = Outcome.ok (p, s1) →
      ((s1.textureGPUCount = s.textureGPUCount + 1 ∧ s1.nextName = s.nextName + 1) ↔
        (tex.gpuObject = none ∨
          ∃ o, tex.gpuObject = some o ∧ o._storageStamp < tex.stamp)) ∧
      ((tex.gpuObject = none ∨ ∃ o, tex.gpuObject = some o ∧ o._storageStamp < tex.stamp) →
        ∃ o, p = GLTexturePtr.gl41 o ∧ o._texture = s.nextName ∧
          o._storageStamp = tex.stamp ∧
          ∀ fuel2 s2, fetchOrCreate H fuel2 { tex with gpuObject := some o } s2
            = Outcome.ok (o, s2)) ∧
      (∀ o, tex.gpuObject = some o → ¬ o._storageStamp < tex.stamp →
        fetchOrCreate H fuel tex s = Outcome.ok (o, s) ∧
        SameCounters s s1 ∧
        ∃ o1, p = GLTexturePtr.gl41 o1 ∧ o1._target = o._target ∧ o1._texture = o._texture ∧
          o1._storageStamp = o._storageStamp ∧ o1._size = o._size)) ∧
    ((tex.gpuObject = none ∨ ∃ o, tex.gpuObject = some o ∧ o._storageStamp < tex.stamp) →
      (H.getGLTextureType tex = GL_TEXTURE_2D ∨ H.getGLTextureType tex = GL_TEXTURE_CUBE_MAP) →
      tex.sampler.maxMip < 65535 →
      tex.sampler.maxMip + 1 - toUint16 tex.sampler.minMip < fuel →
      ∃ p s1, GL41Backend.syncGPUObject H fuel (some tex) s = Outcome.ok (p, s1)) ∧
    (∀ o, tex.gpuObject = some o → ¬ o._storageStamp < tex.stamp →
      (o._target = GL_TEXTURE_2D ∨ o._target = GL_TEXTURE_CUBE_MAP) →
      ∃ p s1, GL41Backend.syncGPUObject H fuel (some tex) s = Outcome.ok (p, s1)) := by
  rw [GL41Backend.syncGPUObject_defined H fuel tex s hdef hext]
  have hstale : (tex.gpuObject = none ∨
      ∃ o, tex.gpuObject = some o ∧ o._storageStamp < tex.stamp) →
      fetchOrCreate H fuel tex s = GL41Texture.new H fuel tex s := by
    intro h
    unfold fetchOrCreate
    rcases h with h | ⟨o, ho, hlt⟩
    · rw [h]
    · rw [ho]; simp only [if_pos hlt]
  have hfresh : ∀ o, tex.gpuObject = some o → ¬ o._storageStamp < tex.stamp →
      fetchOrCreate H fuel tex s = Outcome.ok (o, s) := by
    intro o ho hlt
    unfold fetchOrCreate
    rw [ho]; simp only [if_neg hlt]
  refine ⟨?_, ?_, ?_⟩
  · intro p s1 h
    obtain ⟨c, hc, hk⟩ := Outcome.bind_eq_ok h
    obtain ⟨hsame, o1, hp, h1, h2, h3, h4⟩ := syncIfOutdated_frame hk
    have hA : (tex.gpuObject = none ∨
        ∃ o, tex.gpuObject = some o ∧ o._storageStamp < tex.stamp) →
        (s1.textureGPUCount = s.textureGPUCount + 1 ∧ s1.nextName = s.nextName + 1) ∧
        ∃ o, p = GLTexturePtr.gl41 o ∧ o._texture = s.nextName ∧
          o._storageStamp = tex.stamp ∧
          ∀ fuel2 s2, fetchOrCreate H fuel2 { tex with gpuObject := some o } s2
            = Outcome.ok (o, s2) := by
      intro hst
      rw [hstale hst] at hc
      have hcnt := GL41Texture.new_counters hc
      have hfld := GL41Texture.new_fields hc
      have e2 : o1._texture = s.nextName := by rw [h2, hfld]
      have e3 : o1._storageStamp = tex.stamp := by rw [h3, hfld]
      refine ⟨⟨by rw [hsame.1, hcnt.1], by rw [hsame.2, hcnt.2]⟩, o1, hp, e2, e3, ?_⟩
      intro fuel2 s2
      unfold fetchOrCreate
      simp only [e3, lt_irrefl, if_false]
    have hB : ∀ o, tex.gpuObject = some o → ¬ o._storageStamp < tex.stamp →
        SameCounters s s1 ∧
        ∃ o1, p = GLTexturePtr.gl41 o1 ∧ o1._target = o._target ∧ o1._texture = o._texture ∧
          o1._storageStamp = o._storageStamp ∧ o1._size = o._size := by
      intro o ho hlt
      rw [hfresh o ho hlt] at hc
      simp only [Outcome.ok.injEq] at hc
      subst hc
      exact ⟨hsame, o1, hp, h1, h2, h3, h4⟩
    refine ⟨⟨?_, fun hst => (hA hst).1⟩, fun hst => (hA hst).2,
      fun o ho hlt => ⟨hfresh o ho hlt, hB o ho hlt⟩⟩
    intro hcnt
    by_contra hn
    push_neg at hn
    cases hg : tex.gpuObject with
    | none => exact hn.1 hg
    | some o =>
      have hlt : ¬ o._storageStamp < tex.stamp := not_lt.mpr (hn.2 o hg)
      have hs := (hB o hg hlt).1
      have := hs.1
      omega
  · intro hst ht hmax hf
    rw [hstale hst]
    obtain ⟨o, s1, hnew⟩ := GL41Texture.new_returns H fuel tex s ht (fun _ => hmax) hf
    rw [hnew]
    have hfld := GL41Texture.new_fields hnew
    exact syncIfOutdated_returns H o tex s1 (by rw [hfld]; exact ht)
  · intro o ho hlt ht
    rw [hfresh o ho hlt]
    exact syncIfOutdated_returns H o tex s ht

/-- Witness for C2: the sample texture has no object, so the call returns with the texture
count raised from 4 to 5; with the up-to-date sample object attached the count stays. -/
theorem syncGPUObject_constructs_iff_stale_witness :
    (∃ p s1, GL41Backend.syncGPUObject exampleHeaders 4 (some exampleTexture) exampleState
        = Outcome.ok (p, s1) ∧ s1.textureGPUCount = exampleState.textureGPUCount + 1) ∧
    (∃ p s1, GL41Backend.syncGPUObject exampleHeaders 0
        (some { exampleTexture with gpuObject := some exampleObject }) exampleState
        = Outcome.ok (p, s1) ∧ SameCounters exampleState s1) := by
  constructor
  · have h := syncGPUObject_constructs_iff_stale exampleHeaders 4 exampleTexture exampleState
      rfl (by decide)
    obtain ⟨p, s1, hr⟩ := h.2.1 (Or.inl rfl) (Or.inl rfl) (by decide) (by decide)
    exact ⟨p, s1, hr, ((h.1 p s1 hr).1.mpr (Or.inl rfl)).1⟩
  · have h := syncGPUObject_constructs_iff_stale exampleHeaders 0
      { exampleTexture with gpuObject := some exampleObject } exampleState rfl (by decide)
    obtain ⟨p, s1, hr⟩ := h.2.2 exampleObject rfl (by decide) (Or.inl rfl)
    exact ⟨p, s1, hr, ((h.1 p s1 hr).2.2 exampleObject rfl (by decide)).2.1⟩

end gpu
